import Mathlib

/-!
Shallow embedding of the gemini-stream repository:
  * `src/src/app/api/generate/route.ts` — the `POST` handler of the `/api/generate` endpoint;
  * the client form component (`Home`, `handleSubmit`, `handlePromptChange`, `handleTypeChange`).

JavaScript conventions modelled explicitly:
  * a possibly-missing string field is `Option String`; JS falsiness of such a
    field (`!x` true for `undefined` and `""`) is `truthy x = false`;
  * a thrown JS value is `JsThrown`: either an `Error` carrying a message, or a
    non-`Error` value (whose message is unavailable);
  * a fallible `await` is an `Except JsThrown` value;
  * the external generative-content provider
    (`model.generateContent(prompt)` followed by `result.response.text()`)
    is a parameter `generateContent : String → Except JsThrown String`;
  * the handler's result records, besides the HTTP response, the list of
    prompts that were forwarded to the provider, so "the provider is never
    invoked" is `providerCalls = []`.
-/

namespace GeminiStream

/-- A JS value thrown at runtime: an `Error` with its `message`, or any
non-`Error` value (`error instanceof Error` false). -/
inductive JsThrown where
  | error (msg : String)
  | nonError
deriving DecidableEq, Repr

/-- JS truthiness of a possibly-missing string field: `undefined` and `""` are
falsy, every other string is truthy. -/
def truthy : Option String → Bool
  | none => false
  | some s => s != ""

/-- The request body as destructured by the handler:
`const { prompt, type } = await req.json();` — each field possibly absent. -/
structure ReqBody where
  prompt : Option String
  type : Option String
deriving DecidableEq, Repr

/-- A JSON response body produced by the endpoint: either `{ error: msg }` or
`{ type, content }`. -/
inductive RespBody where
  | errorBody (error : String)
  | genBody (type : String) (content : String)
deriving DecidableEq, Repr

/-- An HTTP response: `NextResponse.json(body, { status })`. -/
structure HttpResponse where
  status : Nat
  body : RespBody
deriving DecidableEq, Repr

/-- The observable outcome of one call to the handler: the HTTP response and
the prompts forwarded to the external provider during the call. -/
structure PostResult where
  resp : HttpResponse
  providerCalls : List String
deriving DecidableEq, Repr

/-- `["text", "image"]`, the closed set accepted by the endpoint's
`.includes(type)` check. -/
def VALID_TYPES : List String := ["text", "image"]

/-- The message computed in the handler's `catch` block:
`error instanceof Error ? error.message : "Internal server error"`. -/
def catchMessage : JsThrown → String
  | .error msg => msg
  | .nonError => "Internal server error"

/-- The `POST` handler of `src/src/app/api/generate/route.ts`.

`apiKey` is `process.env.GEMINI_API_KEY` (`none` when unset); `body` is the
outcome of `await req.json()`; `generateContent` is the external provider.
The whole body of the JS function sits in a `try` whose `catch` returns
`500 { error: catchMessage e }`; the two `await`s that can throw are the body
parse and the provider call, so the `catch` is inlined at those two points. -/
def POST (apiKey : Option String) (body : Except JsThrown ReqBody)
    (generateContent : String → Except JsThrown String) : PostResult :=
  if !(truthy apiKey) then
    ⟨⟨500, .errorBody "Server configuration error: Missing API key"⟩, []⟩
  else
    match body with
    | .error e => ⟨⟨500, .errorBody (catchMessage e)⟩, []⟩
    | .ok b =>
      if !(truthy b.prompt) || !(truthy b.type)
          || !(VALID_TYPES.contains (b.type.getD "")) then
        ⟨⟨400, .errorBody "Prompt and valid type (text or image) are required"⟩, []⟩
      else if b.type == some "text" then
        match generateContent (b.prompt.getD "") with
        | .ok text => ⟨⟨200, .genBody "text" text⟩, [b.prompt.getD ""]⟩
        | .error e => ⟨⟨500, .errorBody (catchMessage e)⟩, [b.prompt.getD ""]⟩
      else
        ⟨⟨501, .errorBody "Image generation not supported in this version"⟩, []⟩

/-! ## Client form component -/

/-- A JSON object as read by the client from a response body: the three fields
it ever accesses (`type`, `content`, `error`), each possibly absent. The
client stores the success payload (`data`) unchanged, so this is also the type
of the stored `result`. -/
structure JsonObj where
  type : Option String
  content : Option String
  error : Option String
deriving DecidableEq, Repr

/-- A `fetch` `Response` as used by `handleSubmit`: `ok`, `status`, and the
outcome of `await response.json()`. -/
structure FetchResponse where
  ok : Bool
  status : Nat
  jsonBody : Except JsThrown JsonObj
deriving Repr

/-- The outcome of the `fetch` call itself: a response, or a thrown value
(network failure, or the 30-second `AbortSignal.timeout` firing). -/
inductive FetchResult where
  | success (resp : FetchResponse)
  | failure (e : JsThrown)
deriving Repr

/-- The component's transient state: `prompt`, `type`, `result`, `loading`,
`error` (the `FormError`'s `message`, `none` when no error is set). -/
structure ClientState where
  prompt : String
  type : String
  result : Option JsonObj
  loading : Bool
  error : Option String
deriving DecidableEq, Repr

/-- `['text', 'image'] as const`. -/
def GENERATION_TYPES : List String := ["text", "image"]

/-- JS `String.prototype.trim()`: strip leading and trailing whitespace,
written structurally on the character list. -/
def jsTrim (s : String) : String :=
  ⟨((s.data.dropWhile Char.isWhitespace).reverse.dropWhile
      Char.isWhitespace).reverse⟩

/-- `prompt.trim().length > 0 && GENERATION_TYPES.includes(type)`. -/
def isFormValid (s : ClientState) : Bool :=
  (jsTrim s.prompt).length > 0 && GENERATION_TYPES.contains s.type

/-- The message computed in `handleSubmit`'s `catch` block:
`err instanceof Error ? err.message : 'The abyss rejected your request.'`. -/
def clientCatchMessage : JsThrown → String
  | .error msg => msg
  | .nonError => "The abyss rejected your request."

/-- The `handleSubmit` callback of the client component, as a transition on the
component state. `net` is what the network would deliver were the `fetch`
issued; the returned `Bool` records whether the `fetch` was issued at all.

Mirrors the source: on invalid form, set the local validation error and
return without touching `loading` or `result`; otherwise set
`loading := true`, `error := null`, `result := null`, run the `try` block,
and in `finally` set `loading := false`. -/
def handleSubmit (s : ClientState) (net : FetchResult) : ClientState × Bool :=
  if !(isFormValid s) then
    ({ s with error := some "A valid incantation and type are required." }, false)
  else
    let s1 : ClientState := { s with loading := true, error := none, result := none }
    let afterTry : ClientState :=
      match net with
      | .failure e => { s1 with error := some (clientCatchMessage e) }
      | .success resp =>
        if !resp.ok then
          -- const errorData = await response.json().catch(() => ({}));
          let errorData : JsonObj :=
            match resp.jsonBody with
            | .ok o => o
            | .error _ => ⟨none, none, none⟩
          -- throw new Error(errorData.error || `HTTP error! Status: ...`);
          let msg : String :=
            if truthy errorData.error then errorData.error.getD ""
            else "HTTP error! Status: " ++ toString resp.status
          { s1 with error := some msg }
        else
          match resp.jsonBody with
          | .error e => { s1 with error := some (clientCatchMessage e) }
          | .ok data =>
            if !(truthy data.type) || !(truthy data.content) then
              -- throw new Error('Invalid response from the abyss');
              { s1 with error := some "Invalid response from the abyss" }
            else
              { s1 with result := some data }
    ({ afterTry with loading := false }, true)

/-- `handlePromptChange`: store the new prompt; `if (error) setError(null)`. -/
def handlePromptChange (s : ClientState) (v : String) : ClientState :=
  if s.error.isSome then { s with prompt := v, error := none }
  else { s with prompt := v }

/-- `handleTypeChange`: store the new type; `if (error) setError(null)`. -/
def handleTypeChange (s : ClientState) (v : String) : ClientState :=
  if s.error.isSome then { s with type := v, error := none }
  else { s with type := v }

/-! ## Theorems about the endpoint -/

/-- C1: for every request with a non-empty prompt and `type = "text"`
(credential configured), when the external provider returns text `T`, the
endpoint responds with status 200 and body `{ type: "text", content: T }`. -/
theorem C1_text_success (key p T : String) (hkey : key ≠ "") (hp : p ≠ "")
    (gen : String → Except JsThrown String) (hgen : gen p = .ok T) :
    POST (some key) (.ok ⟨some p, some "text"⟩) gen =
      ⟨⟨200, .genBody "text" T⟩, [p]⟩ := by
  simp [POST, truthy, hkey, hp, VALID_TYPES, hgen]

/-- Witness for C1 at a concrete request. -/
theorem C1_text_success_witness :
    POST (some "k") (.ok ⟨some "hi", some "text"⟩) (fun _ => .ok "T") =
      ⟨⟨200, .genBody "text" "T"⟩, ["hi"]⟩ :=
  C1_text_success "k" "hi" "T" (by decide) (by decide) (fun _ => .ok "T") rfl

/-- C2 counterexample: a request with `type = "image"` and an empty prompt
(credential configured) receives status 400, not 501 — so the endpoint does
not respond 501 to every `type = "image"` request regardless of the prompt. -/
theorem C2_counterexample :
    (POST (some "k") (.ok ⟨some "", some "image"⟩) (fun p => .ok p)).resp.status
      = 400 := rfl

/-- C2 amended: with the credential configured and a non-empty prompt, a
`type = "image"` request receives status 501 with the fixed body; moreover the
external provider is never invoked on any request whose `type` is `"image"`. -/
theorem C2_image_unsupported (key p : String) (hkey : key ≠ "") (hp : p ≠ "")
    (gen : String → Except JsThrown String) :
    POST (some key) (.ok ⟨some p, some "image"⟩) gen =
      ⟨⟨501, .errorBody "Image generation not supported in this version"⟩, []⟩ ∧
    ∀ (k : Option String) (b : ReqBody) (g : String → Except JsThrown String),
      b.type = some "image" → (POST k (.ok b) g).providerCalls = [] := by
  constructor
  · simp [POST, truthy, hkey, hp, VALID_TYPES]
  · intro k b g hb
    cases hk : truthy k with
    | false => simp [POST, hk]
    | true =>
      simp only [POST, hk, hb, Bool.not_true, Bool.false_eq_true, if_false]
      split
      · rfl
      · simp

/-- Witness for C2's amended theorem at a concrete request. -/
theorem C2_image_unsupported_witness :
    POST (some "k") (.ok ⟨some "p", some "image"⟩) (fun p => .ok p) =
      ⟨⟨501, .errorBody "Image generation not supported in this version"⟩, []⟩ :=
  (C2_image_unsupported "k" "p" (by decide) (by decide) (fun p => .ok p)).1

/-- C3: when the server-side credential is not configured (unset or empty,
i.e. falsy), every request — whatever its body, even an unparseable one —
receives status 500 with the fixed configuration-error body, and the external
provider is never invoked. -/
theorem C3_missing_key (k : Option String) (hk : truthy k = false)
    (body : Except JsThrown ReqBody) (gen : String → Except JsThrown String) :
    POST k body gen =
      ⟨⟨500, .errorBody "Server configuration error: Missing API key"⟩, []⟩ := by
  simp [POST, hk]

/-- Witness for C3 with the credential unset. -/
theorem C3_missing_key_witness :
    POST none (.ok ⟨some "hi", some "text"⟩) (fun _ => .ok "T") =
      ⟨⟨500, .errorBody "Server configuration error: Missing API key"⟩, []⟩ :=
  C3_missing_key none rfl (.ok ⟨some "hi", some "text"⟩) (fun _ => .ok "T")

/-- C4: with the credential configured, a parsed request body missing
`prompt`, or missing `type`, or whose `type` is outside {"text","image"},
receives status 400 with the fixed validation body, and the external provider
is never invoked. -/
theorem C4_validation_400 (key : String) (hkey : key ≠ "") (b : ReqBody)
    (gen : String → Except JsThrown String)
    (hb : b.prompt = none ∨ b.type = none ∨ b.type.getD "" ∉ VALID_TYPES) :
    POST (some key) (.ok b) gen =
      ⟨⟨400, .errorBody "Prompt and valid type (text or image) are required"⟩, []⟩ := by
  rcases hb with h | h | h <;> simp [POST, truthy, hkey, h]

/-- Witness for C4 on a body whose `type` is invalid. -/
theorem C4_validation_400_witness :
    POST (some "k") (.ok ⟨some "hi", some "audio"⟩) (fun _ => .ok "T") =
      ⟨⟨400, .errorBody "Prompt and valid type (text or image) are required"⟩, []⟩ :=
  C4_validation_400 "k" (by decide) ⟨some "hi", some "audio"⟩ (fun _ => .ok "T")
    (Or.inr (Or.inr (by decide)))

/-- C5 counterexample: a whitespace-only prompt (here `" "`) with
`type = "text"` passes the endpoint's validation: the response is 200 and the
prompt is forwarded to the external provider, not rejected with 400. -/
theorem C5_counterexample :
    POST (some "k") (.ok ⟨some " ", some "text"⟩) (fun _ => .ok "T") =
      ⟨⟨200, .genBody "text" "T"⟩, [" "]⟩ := rfl

/-- C5 amended: the endpoint rejects (400, provider not invoked) only a
request whose prompt is the empty string; a whitespace-only prompt is not
rejected by the endpoint. The trim-based check lives in the client, which on
any prompt that is empty after trimming sets a validation error and issues no
network call. -/
theorem C5_empty_prompt (key : String) (hkey : key ≠ "") (ty : Option String)
    (gen : String → Except JsThrown String) :
    POST (some key) (.ok ⟨some "", ty⟩) gen =
      ⟨⟨400, .errorBody "Prompt and valid type (text or image) are required"⟩, []⟩ ∧
    ∀ (s : ClientState) (net : FetchResult), jsTrim s.prompt = "" →
      handleSubmit s net =
        ({ s with error := some "A valid incantation and type are required." },
          false) := by
  constructor
  · simp [POST, truthy, hkey]
  · intro s net hs
    have hv : isFormValid s = false := by
      simp [isFormValid, hs]
    simp [handleSubmit, hv]

/-- Witness for C5's amended theorem: the endpoint part at a concrete request,
and the client part on a whitespace-only prompt. -/
theorem C5_empty_prompt_witness :
    POST (some "k") (.ok ⟨some "", some "text"⟩) (fun _ => .ok "T") =
      ⟨⟨400, .errorBody "Prompt and valid type (text or image) are required"⟩, []⟩ ∧
    handleSubmit ⟨"  ", "text", none, false, none⟩ (.failure .nonError) =
      (⟨"  ", "text", none, false,
        some "A valid incantation and type are required."⟩, false) :=
  ⟨(C5_empty_prompt "k" (by decide) (some "text") (fun _ => .ok "T")).1,
    (C5_empty_prompt "k" (by decide) (some "text") (fun _ => .ok "T")).2
      ⟨"  ", "text", none, false, none⟩ (.failure .nonError) (by decide)⟩

/-- C6: with the credential configured and a valid `type = "text"` request,
an exception thrown by the external provider is caught and surfaced as a
status-500 response whose error field is the exception's message when the
thrown value is an `Error`, and the generic internal-server-error string
otherwise; the handler still returns a structured response. -/
theorem C6_provider_exception (key p : String) (hkey : key ≠ "") (hp : p ≠ "")
    (gen : String → Except JsThrown String) (e : JsThrown)
    (hgen : gen p = .error e) :
    (POST (some key) (.ok ⟨some p, some "text"⟩) gen).resp =
      ⟨500, .errorBody
        (match e with
          | .error m => m
          | .nonError => "Internal server error")⟩ := by
  simp [POST, truthy, hkey, hp, VALID_TYPES, hgen]
  cases e <;> rfl

/-- Witness for C6 with a provider that throws an `Error`. -/
theorem C6_provider_exception_witness :
    (POST (some "k") (.ok ⟨some "hi", some "text"⟩)
        (fun _ => .error (.error "boom"))).resp =
      ⟨500, .errorBody "boom"⟩ :=
  C6_provider_exception "k" "hi" (by decide) (by decide)
    (fun _ => .error (.error "boom")) (.error "boom") rfl

/-- C10: with the credential configured, a request whose body fails to parse
as JSON receives status 500 carrying the parse exception's message — not the
400 validation response — because `req.json()` runs inside the handler's
catch-all, after the credential check. -/
theorem C10_parse_failure (key : String) (hkey : key ≠ "") (msg : String)
    (gen : String → Except JsThrown String) :
    POST (some key) (.error (.error msg)) gen = ⟨⟨500, .errorBody msg⟩, []⟩ := by
  simp [POST, truthy, hkey, catchMessage]

/-- Witness for C10 at a concrete parse error. -/
theorem C10_parse_failure_witness :
    POST (some "k") (.error (.error "Unexpected token")) (fun _ => .ok "T") =
      ⟨⟨500, .errorBody "Unexpected token"⟩, []⟩ :=
  C10_parse_failure "k" (by decide) "Unexpected token" (fun _ => .ok "T")

/-! ## Theorems about the client form component -/

/-- C7 counterexample: on the local validation rejection (empty prompt, so no
network call), the prior stored result is retained, not cleared to null. -/
theorem C7_counterexample :
    (handleSubmit ⟨"", "text", some ⟨some "text", some "hi", none⟩, false, none⟩
        (.failure .nonError)).1.result = some ⟨some "text", some "hi", none⟩ := rfl

/-- C7 amended: on every failure path of `handleSubmit` that issues the
network call, the prior result is cleared to null, an error message is stored,
and the loading flag ends up false; on the local validation rejection an error
message is stored but the prior result, the loading flag and the rest of the
state are left unchanged, and no network call is issued. -/
theorem C7_failure_paths (s : ClientState) (net : FetchResult) :
    (isFormValid s = true → (handleSubmit s net).1.error ≠ none →
      (handleSubmit s net).1.result = none ∧
      (handleSubmit s net).1.loading = false ∧
      (handleSubmit s net).2 = true) ∧
    (isFormValid s = false →
      handleSubmit s net =
        ({ s with error := some "A valid incantation and type are required." },
          false)) := by
  constructor
  · intro hv herr
    cases net with
    | failure e => simp [handleSubmit, hv]
    | success resp =>
      by_cases hok : resp.ok
      · cases hj : resp.jsonBody with
        | error e => simp [handleSubmit, hv, hok, hj]
        | ok data =>
          by_cases hd : (!truthy data.type || !truthy data.content) = true
          · simp [handleSubmit, hv, hok, hj, hd]
          · exfalso
            apply herr
            simp [handleSubmit, hv, hok, hj, hd]
      · simp [handleSubmit, hv, hok]
  · intro hv
    simp [handleSubmit, hv]

/-- Witness for C7's amended theorem: a network failure with a prior result. -/
theorem C7_failure_paths_witness :
    (handleSubmit ⟨"hi", "text", some ⟨some "text", some "x", none⟩, false, none⟩
        (.failure .nonError)).1.result = none ∧
    (handleSubmit ⟨"hi", "text", some ⟨some "text", some "x", none⟩, false, none⟩
        (.failure .nonError)).1.loading = false ∧
    (handleSubmit ⟨"hi", "text", some ⟨some "text", some "x", none⟩, false, none⟩
        (.failure .nonError)).2 = true :=
  (C7_failure_paths ⟨"hi", "text", some ⟨some "text", some "x", none⟩, false, none⟩
      (.failure .nonError)).1 (by decide) (by decide)

/-- C8 counterexample: a 2xx response whose `content` field is present but
empty (`""`) is treated as a failure — stored error "Invalid response from
the abyss" and no result — although neither field is missing. -/
theorem C8_counterexample :
    (handleSubmit ⟨"hi", "text", none, false, none⟩
        (.success ⟨true, 200, .ok ⟨some "text", some "", none⟩⟩)).1 =
      ⟨"hi", "text", none, false, some "Invalid response from the abyss"⟩ := rfl

/-- C8 amended: on a 2xx response the client requires both `type` and
`content` to be present and non-empty (truthy); if either is missing or empty
it stores the invalid-response error and no result, and otherwise it stores
the response as the result and no error. -/
theorem C8_success_requires_fields (s : ClientState) (hv : isFormValid s = true)
    (st : Nat) (data : JsonObj) :
    ((truthy data.type = false ∨ truthy data.content = false) →
      (handleSubmit s (.success ⟨true, st, .ok data⟩)).1.error =
        some "Invalid response from the abyss" ∧
      (handleSubmit s (.success ⟨true, st, .ok data⟩)).1.result = none) ∧
    (truthy data.type = true → truthy data.content = true →
      (handleSubmit s (.success ⟨true, st, .ok data⟩)).1.result = some data ∧
      (handleSubmit s (.success ⟨true, st, .ok data⟩)).1.error = none) := by
  constructor
  · intro hd
    rcases hd with h | h <;> simp [handleSubmit, hv, h]
  · intro ht hc
    simp [handleSubmit, hv, ht, hc]

/-- Witness for C8's amended theorem: a well-formed success payload is
stored. -/
theorem C8_success_requires_fields_witness :
    (handleSubmit ⟨"hi", "text", none, false, none⟩
        (.success ⟨true, 200, .ok ⟨some "text", some "Hello", none⟩⟩)).1.result =
      some ⟨some "text", some "Hello", none⟩ ∧
    (handleSubmit ⟨"hi", "text", none, false, none⟩
        (.success ⟨true, 200, .ok ⟨some "text", some "Hello", none⟩⟩)).1.error =
      none :=
  (C8_success_requires_fields ⟨"hi", "text", none, false, none⟩ (by decide) 200
      ⟨some "text", some "Hello", none⟩).2 (by decide) (by decide)

/-- C9 counterexample: editing the prompt clears a stored error — the error
does not persist until the next submission attempt. -/
theorem C9_counterexample :
    (handlePromptChange ⟨"a", "text", none, false, some "boom"⟩ "ab").error =
      none := rfl

/-- C9 amended: a stored error does not survive prompt edits or type changes:
`handlePromptChange` and `handleTypeChange` both leave the error state
cleared (while storing the new prompt or type), so an error persists only
until the next submission attempt, prompt edit, or type change. -/
theorem C9_edit_clears_error (s : ClientState) (v : String) :
    (handlePromptChange s v).error = none ∧
    (handleTypeChange s v).error = none ∧
    (handlePromptChange s v).prompt = v ∧
    (handleTypeChange s v).type = v := by
  cases h : s.error <;> simp [handlePromptChange, handleTypeChange, h]

end GeminiStream
